import Mathlib

/-!
Verification of the orchestration and routing layer of the pymodbus
simulator HTTP server (`pymodbus/server/simulator/http_server.py`),
class `ModbusSimulatorServer`.

The embedding models:
* the static-file handler `handle_html` (path join, resolution against
  the filesystem, 404 mapping of open failures);
* the constructor's configuration resolution (`server_list` and
  `device_list` lookups, the `comm_class` and `framer_class`
  registries, the order in which objects are built);
* the lifecycle hooks `start_modbus_server` and `stop_modbus_server`
  (logged events and raised exceptions made explicit);
* `run_forever` (startup hooks fire during runner setup, before the
  TCP site starts listening);
* the route table and the POST API handlers.

Python exceptions are modelled with `Except`; log calls and externally
visible side effects are modelled as explicit event traces.
-/

namespace PymodbusSim

/-! ## Paths and the filesystem

`os.path.join` (POSIX): an absolute second component discards the first;
otherwise the components are joined with a separator.  Opening a path
makes the OS resolve `.` and `..` segments, which `resolvePath` models.
-/

/-- Split a character list at `/` (the pieces, in order). -/
def splitSlashAux (cur : List Char) (acc : List String) : List Char → List String
  | [] => (String.mk cur.reverse :: acc).reverse
  | c :: rest =>
    if c = '/' then splitSlashAux [] (String.mk cur.reverse :: acc) rest
    else splitSlashAux (c :: cur) acc rest

/-- Split a POSIX path into its non-empty segments. -/
def splitPath (s : String) : List String :=
  (splitSlashAux [] [] s.toList).filter (fun seg => seg ≠ "")

/-- Does the string start with `/` (an absolute POSIX path)? -/
def firstCharSlash (s : String) : Bool :=
  match s.toList with
  | [] => false
  | c :: _ => c = '/'

/-- Does the string end with `/`? -/
def lastCharSlash (s : String) : Bool :=
  match s.toList.getLast? with
  | some c => c = '/'
  | none => false

/-- `os.path.join a b` for one relative or absolute component `b`:
an absolute `b` discards `a`, otherwise the parts are joined with a
separator. -/
def osPathJoin (a b : String) : String :=
  if firstCharSlash b then b
  else if lastCharSlash a then a ++ b
  else a ++ "/" ++ b

/-- Resolve `.` and `..` segments the way the OS does on open:
`..` pops the last segment (at the root it stays at the root). -/
def resolveSegs (acc : List String) : List String → List String
  | [] => acc.reverse
  | seg :: rest =>
    if seg = "." then resolveSegs acc rest
    else if seg = ".." then resolveSegs acc.tail rest
    else resolveSegs (seg :: acc) rest

/-- Resolved segment list of a path string. -/
def resolvePath (s : String) : List String :=
  resolveSegs [] (splitPath s)

/-- A filesystem: the regular files, as resolved segment lists with their
content.  Paths not present (directories included) fail to open as a
regular file, raising FileNotFoundError or IsADirectoryError. -/
abbrev FS : Type := List (List String × String)

/-- `open(path)` for reading: the content when `path` is a regular file. -/
def openFile (fs : FS) (p : List String) : Option String :=
  (fs.find? (fun e => e.1 == p)).map (fun e => e.2)

/-- Outcome of `handle_html`: a `web.FileResponse` serving a file, or the
`web.HTTPNotFound` raised when the open fails. -/
inductive HtmlResult
  | fileResponse (path : List String) (content : String)
  | notFound
deriving DecidableEq

/-- `ModbusSimulatorServer.handle_html`: `page = request.path[1:]`, the
default document substituted for the empty tail, joined onto
`self.web_path`, then opened; `FileNotFoundError` and
`IsADirectoryError` map to HTTP 404.  The source performs no containment
check on the joined path before opening it. -/
def handle_html (webPath : String) (pathTail : String) (fs : FS) : HtmlResult :=
  let page := if pathTail = "" then "index.html" else pathTail
  let file := osPathJoin webPath page
  match openFile fs (resolvePath file) with
  | some content => HtmlResult.fileResponse (resolvePath file) content
  | none => HtmlResult.notFound

/-- A demonstration filesystem: the asset root `/app/web` holds
`index.html`, and `/etc/passwd` exists outside the asset root. -/
def fsDemo : FS :=
  [ (["app", "web", "index.html"], "<html>simulator</html>"),
    (["etc", "passwd"], "root:x:0:0:root:/root:/bin/bash") ]

/-! ## Configuration resolution in `__init__`

The constructor looks the requested server and device profiles up in
the setup document, builds the device context and datastore, resolves
the `comm` and `framer` strings through the two registry dictionaries,
and only then constructs the protocol server.  A failed dictionary
lookup raises `KeyError`, the construction-time configuration failure
the spec's taxonomy names `ConfigError`. -/

/-- The protocol-server constructors registered in `comm_class`. -/
inductive CommClass | serial | tcp | tls | udp
deriving DecidableEq

/-- The framer constructors registered in `framer_class`. -/
inductive FramerClass | ascii | binary | rtu | socket | tls
deriving DecidableEq

/-- The `comm_class` dictionary lookup. -/
def comm_class (s : String) : Option CommClass :=
  if s = "serial" then some CommClass.serial
  else if s = "tcp" then some CommClass.tcp
  else if s = "tls" then some CommClass.tls
  else if s = "udp" then some CommClass.udp
  else none

/-- The `framer_class` dictionary lookup. -/
def framer_class (s : String) : Option FramerClass :=
  if s = "ascii" then some FramerClass.ascii
  else if s = "binary" then some FramerClass.binary
  else if s = "rtu" then some FramerClass.rtu
  else if s = "socket" then some FramerClass.socket
  else if s = "tls" then some FramerClass.tls
  else none

/-- A device profile: an uninterpreted record passed through to the
datastore engine. -/
abbrev DeviceProfile : Type := List (String × String)

/-- A server profile: the `comm` and `framer` selectors plus the
remaining transport-specific keyword parameters, passed through
opaquely. -/
structure ServerProfile where
  comm : String
  framer : String
  kwargs : List (String × String)
deriving DecidableEq

/-- The parsed setup document: `server_list` and `device_list`. -/
structure Setup where
  server_list : List (String × ServerProfile)
  device_list : List (String × DeviceProfile)
deriving DecidableEq

/-- Python dictionary lookup `d[k]` as an `Option`. -/
def lookupKey {α : Type} (l : List (String × α)) (k : String) : Option α :=
  (l.find? (fun e => e.1 == k)).map (fun e => e.2)

/-- `KeyError`, the construction-time configuration failure; the spec's
error taxonomy calls this category `ConfigError`. -/
inductive ConfigError
  | keyError (key : String)
deriving DecidableEq

/-- Objects the constructor builds, in source order: the
`ModbusSimulatorContext` (line 102), the `ModbusServerContext`
datastore (line 103), and the protocol server (line 106). -/
inductive InitEffect
  | builtDeviceContext
  | builtDatastore
  | builtProtocolServer
deriving DecidableEq

/-- The constructed protocol server: resolved constructor, framer and
the remaining keyword parameters. -/
structure ProtocolServer where
  comm : CommClass
  framer : FramerClass
  kwargs : List (String × String)
deriving DecidableEq

/-- The configuration-resolution part of `ModbusSimulatorServer.__init__`
(lines 100-106): profile lookups, context and datastore construction,
registry resolution, protocol-server construction.  Returns the objects
built so far (in order) together with the result — `KeyError` on the
first failed lookup, or the constructed protocol server. -/
def initSim (setup : Setup) (modbus_server modbus_device : String) :
    List InitEffect × Except ConfigError ProtocolServer :=
  match lookupKey setup.server_list modbus_server with
  | none => ([], Except.error (ConfigError.keyError modbus_server))
  | some server =>
    match lookupKey setup.device_list modbus_device with
    | none => ([], Except.error (ConfigError.keyError modbus_device))
    | some _device =>
      match comm_class server.comm with
      | none =>
        ([InitEffect.builtDeviceContext, InitEffect.builtDatastore],
         Except.error (ConfigError.keyError server.comm))
      | some comm =>
        match framer_class server.framer with
        | none =>
          ([InitEffect.builtDeviceContext, InitEffect.builtDatastore],
           Except.error (ConfigError.keyError server.framer))
        | some framer =>
          ([InitEffect.builtDeviceContext, InitEffect.builtDatastore,
            InitEffect.builtProtocolServer],
           Except.ok { comm := comm, framer := framer, kwargs := server.kwargs })

/-- A demonstration setup document whose single server profile carries
an unregistered `comm` value. -/
def setupBadComm : Setup :=
  { server_list := [("server", { comm := "bogus", framer := "rtu", kwargs := [] })],
    device_list := [("device", [])] }

/-- A demonstration setup document with no profile named `server`. -/
def setupNoServer : Setup :=
  { server_list := [("other", { comm := "tcp", framer := "socket", kwargs := [] })],
    device_list := [("device", [])] }

/-! ## Lifecycle hooks

`__init__` appends `start_modbus_server` to `web_app.on_startup` and
`stop_modbus_server` to `web_app.on_shutdown`.  The hooks' awaited
calls into the protocol server and the event loop are modelled by
`Except` parameters giving each call's outcome; the hooks' log calls
become an explicit event list, and a hook that raises returns
`Except.error`. -/

/-- A Python exception: `asyncio.CancelledError` or any other
exception, carried with its message. -/
inductive Exc
  | cancelledError
  | err (msg : String)
deriving DecidableEq

/-- View an `Except` as a sum, to decide equality. -/
def exceptToSum {ε α : Type} : Except ε α → ε ⊕ α
  | Except.error e => Sum.inl e
  | Except.ok a => Sum.inr a

instance {ε α : Type} [DecidableEq ε] [DecidableEq α] :
    DecidableEq (Except ε α) := fun a b =>
  decidable_of_iff (exceptToSum a = exceptToSum b)
    (by cases a <;> cases b <;> simp [exceptToSum])

/-- The text Python interpolates for an exception. -/
def excMsg : Exc → String
  | Exc.cancelledError => "CancelledError"
  | Exc.err m => m

/-- Does an `except Exception` clause catch this exception?  Since
Python 3.8, `asyncio.CancelledError` derives from `BaseException`, not
`Exception`, so it skips such a clause. -/
def isException : Exc → Bool
  | Exc.cancelledError => false
  | Exc.err _ => true

/-- An asyncio task handle, as stored in `app` under the key
`modbus_server`. -/
structure ModbusTask where
  id : Nat
deriving DecidableEq

/-- A log call made by a lifecycle hook. -/
inductive LogEvent
  | logError (msg : String)
  | logInfo (msg : String)
deriving DecidableEq

/-- `ModbusSimulatorServer.start_modbus_server` (lines 125-137).
`hasStart` is the `getattr(self.modbus_server, "start", None)` test;
`startResult` the outcome of `await self.modbus_server.start()`;
`createTaskResult` the outcome of scheduling `serve_forever` with
`asyncio.create_task` (the stored task handle on success).  Both calls
sit in one `try` whose clause is `except Exception`: an exception of
the `Exception` hierarchy is logged and re-raised, while a
`BaseException` such as `asyncio.CancelledError` skips the clause and
propagates with no log; on success the hook stores the task and logs
success. -/
def start_modbus_server (hasStart : Bool) (startResult : Except Exc Unit)
    (createTaskResult : Except Exc ModbusTask) :
    List LogEvent × Except Exc ModbusTask :=
  let body : Except Exc ModbusTask :=
    match hasStart, startResult with
    | true, Except.error e => Except.error e
    | _, _ => createTaskResult
  match body with
  | Except.error e =>
    ((if isException e then
        [LogEvent.logError ("Error starting modbus server, reason: " ++ excMsg e)]
      else []),
     Except.error e)
  | Except.ok t => ([LogEvent.logInfo "Modbus server started"], Except.ok t)

/-- The outcomes of one run's awaited calls: the startup-hook inputs
plus the outcome of `site.start()`. -/
structure RunEnv where
  hasStart : Bool
  startResult : Except Exc Unit
  createTaskResult : Except Exc ModbusTask
  siteStartResult : Except Exc Unit
deriving DecidableEq

/-- The externally visible events of `run_forever`. -/
inductive RunEvent
  | startupHookFinished (r : Except Exc ModbusTask)
  | httpListening
  | runLoopForever
deriving DecidableEq

/-- `ModbusSimulatorServer.run_forever` (lines 146-160).  It awaits
`runner.setup()` — which, by the hosting framework's contract stated in
the spec, awaits the application's `on_startup` hooks in registration
order, here the single `start_modbus_server` hook — and only then
creates the `TCPSite` and awaits `site.start()`, the point at which the
HTTP listener begins accepting connections.  An exception from either
await is re-raised out of `run_forever`; on success the loop runs
forever. -/
def run_forever (env : RunEnv) : List RunEvent × Except Exc Unit :=
  match (start_modbus_server env.hasStart env.startResult env.createTaskResult).2 with
  | Except.error e => ([RunEvent.startupHookFinished (Except.error e)], Except.error e)
  | Except.ok t =>
    match env.siteStartResult with
    | Except.error e =>
      ([RunEvent.startupHookFinished (Except.ok t)], Except.error e)
    | Except.ok _ =>
      ([RunEvent.startupHookFinished (Except.ok t), RunEvent.httpListening,
        RunEvent.runLoopForever],
       Except.ok ())

/-- A demonstration run in which every awaited call succeeds. -/
def envDemo : RunEnv :=
  { hasStart := true, startResult := Except.ok (),
    createTaskResult := Except.ok { id := 0 }, siteStartResult := Except.ok () }

/-- The externally visible events of `stop_modbus_server`. -/
inductive StopEvent
  | logStopping
  | cancelRequested
  | taskAwaited (r : Except Exc Unit)
  | logStopped
deriving DecidableEq

/-- `ModbusSimulatorServer.stop_modbus_server` (lines 139-144): logs,
calls `app["modbus_server"].cancel()`, then awaits the task.
`awaitResult` is the outcome of `await app["modbus_server"]` — for a
task that honours the cancellation it is
`Except.error Exc.cancelledError`, re-raised by the await.  The hook
has no exception handling: when the await raises, the exception leaves
the hook and the final log call is never reached. -/
def stop_modbus_server (awaitResult : Except Exc Unit) :
    List StopEvent × Except Exc Unit :=
  match awaitResult with
  | Except.ok _ =>
    ([StopEvent.logStopping, StopEvent.cancelRequested,
      StopEvent.taskAwaited (Except.ok ()), StopEvent.logStopped],
     Except.ok ())
  | Except.error e =>
    ([StopEvent.logStopping, StopEvent.cancelRequested,
      StopEvent.taskAwaited (Except.error e)],
     Except.error e)

/-! ## Routing

`__init__` (lines 114-121) registers, in order: a GET catch-all
`/{tail:.*}` to `handle_html`, and POST routes `/api`, `/api/data`,
`/api/request` to the three API handlers.  Dispatch selects the first
route whose method and path pattern both match. -/

/-- An HTTP method of the route table. -/
inductive Method | get | post
deriving DecidableEq, BEq

/-- The registered handlers. -/
inductive HandlerTag
  | handleHtml
  | handleApi
  | handleApiData
  | handleApiRequest
deriving DecidableEq

/-- A route's path pattern: the catch-all `/{tail:.*}`, which matches
every request path, or a literal path. -/
inductive RoutePattern
  | tailCatchAll
  | exactPath (p : String)
deriving DecidableEq

/-- One registered route. -/
structure Route where
  method : Method
  pattern : RoutePattern
  handler : HandlerTag
deriving DecidableEq

/-- Does a pattern match a request path? -/
def patternMatches : RoutePattern → String → Bool
  | RoutePattern.tailCatchAll, _ => true
  | RoutePattern.exactPath p, q => p == q

/-- The route table added in `__init__`, in registration order. -/
def routes : List Route :=
  [ { method := Method.get, pattern := RoutePattern.tailCatchAll,
      handler := HandlerTag.handleHtml },
    { method := Method.post, pattern := RoutePattern.exactPath "/api",
      handler := HandlerTag.handleApi },
    { method := Method.post, pattern := RoutePattern.exactPath "/api/data",
      handler := HandlerTag.handleApiData },
    { method := Method.post, pattern := RoutePattern.exactPath "/api/request",
      handler := HandlerTag.handleApiRequest } ]

/-- Route resolution: the first registered route whose method and
pattern match the request. -/
def dispatch (m : Method) (path : String) : Option HandlerTag :=
  (routes.find? (fun r => r.method == m && patternMatches r.pattern path)).map
    (fun r => r.handler)

/-- An HTTP response body returned by an API handler. -/
inductive ApiResponse
  | text (body : String)
deriving DecidableEq

/-- `handle_api` (lines 178-181): parses the posted body and answers. -/
def handle_api (postData : String) : ApiResponse :=
  ApiResponse.text ("got api " ++ postData)

/-- `handle_api_data` (lines 183-186). -/
def handle_api_data (_postData : String) : ApiResponse :=
  ApiResponse.text "got api data"

/-- `handle_api_request` (lines 188-191). -/
def handle_api_request (_postData : String) : ApiResponse :=
  ApiResponse.text "got api request"

/-- Run the POST handler a dispatch selected on the parsed body;
`handle_html` is not a POST handler. -/
def runPost (t : HandlerTag) (postData : String) : Option ApiResponse :=
  match t with
  | HandlerTag.handleApi => some (handle_api postData)
  | HandlerTag.handleApiData => some (handle_api_data postData)
  | HandlerTag.handleApiRequest => some (handle_api_request postData)
  | HandlerTag.handleHtml => none

/-! ## Theorems for the static handler -/

/-- C1: for every GET whose path tail contains a traversal sequence the
handler is claimed to return 404 without reading outside the asset
root.  The source has no containment check: at tail
`../../etc/passwd` it opens and serves `/etc/passwd`, a file whose
resolved path is not under the asset root `/app/web`. -/
theorem handle_html_traversal_escapes_root :
    handle_html "/app/web" "../../etc/passwd" fsDemo =
      HtmlResult.fileResponse ["etc", "passwd"] "root:x:0:0:root:/root:/bin/bash" ∧
    (["app", "web"].isPrefixOf ["etc", "passwd"]) = false := by
  constructor
  · decide
  · decide

/-- C8: the empty path tail is replaced by the default document name
before resolution, so it is served exactly as an explicit request for
`index.html`, on every asset root and filesystem. -/
theorem handle_html_empty_eq_index (webPath : String) (fs : FS) :
    handle_html webPath "" fs = handle_html webPath "index.html" fs := rfl

/-! ## Theorems for configuration resolution -/

/-- C4: when the selected server profile carries a `comm` value outside
the `comm_class` registry or a `framer` value outside the
`framer_class` registry, construction fails with the configuration
error (`KeyError`, the spec's ConfigError), and no protocol server
object is built. -/
theorem initSim_unknown_comm_framer_fails (setup : Setup)
    (sname dname : String) (server : ServerProfile)
    (hs : lookupKey setup.server_list sname = some server)
    (hbad : comm_class server.comm = none ∨ framer_class server.framer = none) :
    (∃ e, (initSim setup sname dname).2 = Except.error e) ∧
    InitEffect.builtProtocolServer ∉ (initSim setup sname dname).1 := by
  rcases hbad with h | h
  · cases hd : lookupKey setup.device_list dname <;>
      simp [initSim, hs, hd, h]
  · cases hd : lookupKey setup.device_list dname with
    | none => simp [initSim, hs, hd]
    | some d =>
      cases hc : comm_class server.comm <;>
        simp [initSim, hs, hd, hc, h]

/-- Witness for C4: a concrete setup whose profile has `comm = bogus`
fails without building a protocol server. -/
theorem initSim_unknown_comm_framer_fails_witness :
    (∃ e, (initSim setupBadComm "server" "device").2 = Except.error e) ∧
    InitEffect.builtProtocolServer ∉ (initSim setupBadComm "server" "device").1 :=
  initSim_unknown_comm_framer_fails setupBadComm "server" "device"
    { comm := "bogus", framer := "rtu", kwargs := [] } (by decide) (Or.inl (by decide))

/-- C5: when the requested server-profile name is absent from
`server_list` or the requested device-profile name is absent from
`device_list`, construction fails with the configuration error and
nothing is built — in particular no protocol server, so no network
resource is opened. -/
theorem initSim_missing_profile_fails (setup : Setup) (sname dname : String)
    (h : lookupKey setup.server_list sname = none ∨
         lookupKey setup.device_list dname = none) :
    (∃ e, (initSim setup sname dname).2 = Except.error e) ∧
    (initSim setup sname dname).1 = [] := by
  unfold initSim
  cases hs : lookupKey setup.server_list sname with
  | none => exact ⟨⟨ConfigError.keyError sname, rfl⟩, rfl⟩
  | some server =>
    rcases h with h | h
    · rw [hs] at h
      exact absurd h (by simp)
    · rw [h]
      exact ⟨⟨ConfigError.keyError dname, rfl⟩, rfl⟩

/-- Witness for C5: a concrete setup with no profile named `server`
fails with nothing built. -/
theorem initSim_missing_profile_fails_witness :
    (∃ e, (initSim setupNoServer "server" "device").2 = Except.error e) ∧
    (initSim setupNoServer "server" "device").1 = [] :=
  initSim_missing_profile_fails setupNoServer "server" "device" (Or.inl (by decide))

/-! ## Theorems for the lifecycle hooks -/

/-- C2, counterexample to the claim as stated: a cancellation raised
at `await self.modbus_server.start()` is re-raised out of the startup
hook, but `asyncio.CancelledError` derives from `BaseException` since
Python 3.8, so the `except Exception` clause does not catch it and
nothing is logged — the log trace is empty, refuting that every such
exception is logged. -/
theorem start_hook_cancellation_not_logged :
    start_modbus_server true (Except.error Exc.cancelledError)
        (Except.ok { id := 0 }) =
      ([], Except.error Exc.cancelledError) := rfl

/-- C2 (amended): every exception raised during the protocol server's
`start()` or while scheduling its serve loop with `create_task` is
re-raised out of the startup hook — never swallowed — so the startup
event fails; an exception of the `Exception` hierarchy is additionally
logged before the re-raise, while `asyncio.CancelledError`, a
`BaseException`, skips the `except Exception` clause and propagates
unlogged. -/
theorem start_hook_reraises_logs_exceptions (hasStart : Bool)
    (startResult : Except Exc Unit) (createTaskResult : Except Exc ModbusTask)
    (e : Exc)
    (h : (hasStart = true ∧ startResult = Except.error e) ∨
         ((hasStart = false ∨ startResult = Except.ok ()) ∧
           createTaskResult = Except.error e)) :
    (start_modbus_server hasStart startResult createTaskResult).2 =
      Except.error e ∧
    (start_modbus_server hasStart startResult createTaskResult).1 =
      (if isException e then
        [LogEvent.logError ("Error starting modbus server, reason: " ++ excMsg e)]
       else []) := by
  rcases h with ⟨hh, hsr⟩ | ⟨hh, hct⟩
  · subst hh
    subst hsr
    exact ⟨rfl, rfl⟩
  · subst hct
    rcases hh with hh | hh
    · subst hh
      cases startResult <;> exact ⟨rfl, rfl⟩
    · subst hh
      cases hasStart <;> exact ⟨rfl, rfl⟩

/-- Witness for C2 (amended): a failing `start()` call aborts the
concrete hook with its exception re-raised, and logged because it is
an `Exception`. -/
theorem start_hook_reraises_logs_exceptions_witness :
    (start_modbus_server true (Except.error (Exc.err "could not bind socket"))
        (Except.ok { id := 0 })).2 =
      Except.error (Exc.err "could not bind socket") ∧
    (start_modbus_server true (Except.error (Exc.err "could not bind socket"))
        (Except.ok { id := 0 })).1 =
      (if isException (Exc.err "could not bind socket") then
        [LogEvent.logError
          ("Error starting modbus server, reason: " ++
            excMsg (Exc.err "could not bind socket"))]
       else []) :=
  start_hook_reraises_logs_exceptions true
    (Except.error (Exc.err "could not bind socket"))
    (Except.ok { id := 0 }) (Exc.err "could not bind socket") (Or.inl ⟨rfl, rfl⟩)

/-- C3: in every run, the startup hook (protocol-server start and serve
task creation) finishes — with success or failure — strictly before the
HTTP listener starts accepting: the hook event is at position 0 of the
trace, before any `httpListening` event, and when the hook fails there
is no `httpListening` event at all. -/
theorem modbus_startup_before_http_accept (env : RunEnv) :
    (∀ n, (run_forever env).1[n]? = some RunEvent.httpListening →
      0 < n ∧
      (run_forever env).1[0]? =
        some (RunEvent.startupHookFinished
          (start_modbus_server env.hasStart env.startResult env.createTaskResult).2)) ∧
    (∀ e,
      (start_modbus_server env.hasStart env.startResult env.createTaskResult).2 =
        Except.error e →
      RunEvent.httpListening ∉ (run_forever env).1) := by
  constructor
  · intro n hn
    cases hh : (start_modbus_server env.hasStart env.startResult env.createTaskResult).2 with
    | error e =>
      simp only [run_forever, hh] at hn
      rcases n with _ | n <;> simp at hn
    | ok t =>
      cases hs : env.siteStartResult with
      | error e2 =>
        simp only [run_forever, hh, hs] at hn
        rcases n with _ | n <;> simp at hn
      | ok u =>
        constructor
        · rcases n with _ | n
          · simp only [run_forever, hh, hs] at hn
            simp at hn
          · omega
        · simp [run_forever, hh, hs]
  · intro e he
    simp [run_forever, he]

/-- Witness for C3: in a run where every call succeeds, the
`httpListening` event at position 1 is preceded by the finished startup
hook at position 0. -/
theorem modbus_startup_before_http_accept_witness :
    0 < 1 ∧
    (run_forever envDemo).1[0]? =
      some (RunEvent.startupHookFinished
        (start_modbus_server envDemo.hasStart envDemo.startResult
          envDemo.createTaskResult).2) :=
  (modbus_startup_before_http_accept envDemo).1 1 (by decide)

/-- C6: for every outcome of the awaited task, the shutdown hook
requests cancellation of the stored background task (event position 1)
and then awaits that task (event position 2) before the hook finishes —
the cancellation is never fire-and-forget. -/
theorem stop_hook_cancels_then_awaits (r : Except Exc Unit) :
    (stop_modbus_server r).1[1]? = some StopEvent.cancelRequested ∧
    (stop_modbus_server r).1[2]? = some (StopEvent.taskAwaited r) := by
  cases r with
  | ok u => cases u; exact ⟨rfl, rfl⟩
  | error e => exact ⟨rfl, rfl⟩

/-- C7: the claim says a failure while cancelling the background task
is logged and the shutdown hook completes normally.  The source has no
exception handling in `stop_modbus_server`: when the awaited cancelled
task re-raises `CancelledError`, the hook propagates it (the result is
`Except.error`, not `Except.ok`), logs no error, and never reaches the
final `Modbus server Stopped` log call. -/
theorem stop_hook_propagates_cancellation :
    stop_modbus_server (Except.error Exc.cancelledError) =
      ([StopEvent.logStopping, StopEvent.cancelRequested,
        StopEvent.taskAwaited (Except.error Exc.cancelledError)],
       Except.error Exc.cancelledError) ∧
    StopEvent.logStopped ∉ (stop_modbus_server (Except.error Exc.cancelledError)).1 := by
  exact ⟨rfl, by decide⟩

/-! ## Theorems for routing -/

/-- C9: each of the POST routes `/api`, `/api/data` and `/api/request`
dispatches to its registered handler, and that handler returns a
response for every parsed body — no fall-through and no exception. -/
theorem post_api_routes_always_respond (postData : String) :
    dispatch Method.post "/api" = some HandlerTag.handleApi ∧
    runPost HandlerTag.handleApi postData =
      some (ApiResponse.text ("got api " ++ postData)) ∧
    dispatch Method.post "/api/data" = some HandlerTag.handleApiData ∧
    runPost HandlerTag.handleApiData postData =
      some (ApiResponse.text "got api data") ∧
    dispatch Method.post "/api/request" = some HandlerTag.handleApiRequest ∧
    runPost HandlerTag.handleApiRequest postData =
      some (ApiResponse.text "got api request") :=
  ⟨rfl, rfl, rfl, rfl, rfl, rfl⟩

/-- C10: the GET route is a catch-all, so every GET request — the API
paths included — is dispatched to the static-file handler; GET `/api`
is answered 404 when the asset root holds no file named `api`; and a
dispatch to any handler other than the static one can only be a POST. -/
theorem get_requests_hit_static_handler :
    (∀ p, dispatch Method.get p = some HandlerTag.handleHtml) ∧
    handle_html "/app/web" "api" fsDemo = HtmlResult.notFound ∧
    (∀ m p t, dispatch m p = some t → t ≠ HandlerTag.handleHtml →
      m = Method.post) := by
  refine ⟨fun p => rfl, by decide, ?_⟩
  intro m p t hd hne
  cases m with
  | post => rfl
  | get =>
    have h2 : dispatch Method.get p = some HandlerTag.handleHtml := rfl
    rw [hd] at h2
    injection h2 with h3
    exact absurd h3 hne

/-- Witness for C10: the POST dispatch of `/api` reaches a non-static
handler, so its method is POST. -/
theorem get_requests_hit_static_handler_witness : Method.post = Method.post :=
  get_requests_hit_static_handler.2.2 Method.post "/api" HandlerTag.handleApi
    rfl (by decide)

end PymodbusSim
